import Mathlib

/-!
Shallow embedding of the controller/receiver layer of MuddySwamp
(src/control.py): MultiController construction (member-list flattening)
and command scanning, the Monoreceiver attach/detach protocol, and the
Multireceiver aggregate (failure detection, command fan-out, and
message routing with the bounded dedup window).

Commands and messages are opaque text; queue.Queue FIFOs are embedded
as Lean lists (front = oldest element).
-/

namespace MuddySwamp

/-- Commands are opaque text tokens (src/control.py queues hold them FIFO). -/
abbrev Cmd := String

/-- Messages are opaque text (src/control.py message queues, FIFO). -/
abbrev Msg := String

/-! ## MultiController (src/control.py lines 58-123)

A controller as seen by `MultiController.__init__` is either a leaf
controller (e.g. a `Player`, carrying its pending inbound command
queue) or a `MultiController` wrapping an ordered member list. -/

inductive Ctrl where
  | leaf (cmds : List Cmd) : Ctrl
  | multi (members : List Ctrl) : Ctrl

/-- True exactly on leaf (non-MultiController) controllers. -/
def Ctrl.isLeaf : Ctrl → Bool
  | .leaf _ => true
  | .multi _ => false

/-- A `multi` node is flat when its member list holds no nested
MultiController; every leaf is trivially flat.  `MultiController.__init__`
only ever produces flat nodes (proved below). -/
def Ctrl.flatOk : Ctrl → Bool
  | .leaf _ => true
  | .multi l => l.all Ctrl.isLeaf

mutual
/-- The leaf controllers reachable from a controller, in registration
order (a leaf yields itself; a multi node yields its members' leaves). -/
def Ctrl.leaves : Ctrl → List Ctrl
  | .leaf cmds => [.leaf cmds]
  | .multi members => leavesList members

/-- Concatenation of the leaves of each controller in the list, in order. -/
def leavesList : List Ctrl → List Ctrl
  | [] => []
  | c :: rest => c.leaves ++ leavesList rest
end

/-- `MultiController.__init__` (src/control.py lines 76-86): build
`_ctrl_list` by walking the arguments in order; a constituent that is
itself a MultiController is extended (its own `_ctrl_list` spliced in
place), any other controller is appended. -/
def flattenInit : List Ctrl → List Ctrl
  | [] => []
  | Ctrl.multi l :: rest => l ++ flattenInit rest
  | c :: rest => c :: flattenInit rest

/-- A constructed MultiController: a `multi` node over the flattened list. -/
def mkMultiController (ctrls : List Ctrl) : Ctrl := .multi (flattenInit ctrls)

/-! `MultiController.has_cmd` / `read_cmd` (src/control.py lines 105-123)
over a constructed MultiController.  Since `__init__` flattens (proved
below), the member list holds only leaf controllers, each just its
command queue; so the composite state is a `List (List Cmd)`.
`Player.read_cmd` is `queue.get()`: it removes and returns the oldest
command (it blocks on an empty queue; `MultiController.read_cmd` only
invokes it behind `has_cmd`). -/

/-- `MultiController.has_cmd`: true iff some member has a queued command. -/
def MultiController.has_cmd (l : List (List Cmd)) : Bool :=
  l.any (fun q => !q.isEmpty)

/-- `MultiController.read_cmd`: scan members in registration order; on the
first whose `has_cmd()` is true, return that member's `read_cmd()` (which
pops that member's queue).  If the scan finds nothing the Python function
falls off the end and returns None with every queue untouched. -/
def MultiController.read_cmd : List (List Cmd) → Option Cmd × List (List Cmd)
  | [] => (none, [])
  | q :: rest =>
    if !q.isEmpty then
      (q.head?, q.tail :: rest)
    else
      let t := MultiController.read_cmd rest
      (t.1, q :: t.2)

/-! ## Monoreceiver attach/detach (src/control.py lines 234-254)

Joint state of all Monoreceivers and Controllers, identified by
numbers: each receiver's `controller` field and each controller's
`receiver` back-reference. -/

structure MonoState where
  recCtrl : Nat → Option Nat
  ctrlRec : Nat → Option Nat

/-- `Monoreceiver.detach` (src/control.py lines 248-251): if a controller
is attached, clear its `receiver` back-reference; then set the
receiver's own `controller` to None. -/
def detach (r : Nat) (s : MonoState) : MonoState :=
  match s.recCtrl r with
  | some c =>
      { recCtrl := fun r2 => if r2 = r then none else s.recCtrl r2
        ctrlRec := fun c2 => if c2 = c then none else s.ctrlRec c2 }
  | none =>
      { recCtrl := fun r2 => if r2 = r then none else s.recCtrl r2
        ctrlRec := s.ctrlRec }

/-- `Monoreceiver.attach` (src/control.py lines 239-246): no-op when the
controller is already attached; otherwise detach the current controller,
then set the two references. -/
def attach (r c : Nat) (s : MonoState) : MonoState :=
  if s.recCtrl r = some c then s
  else
    let s1 := detach r s
    { recCtrl := fun r2 => if r2 = r then some c else s1.recCtrl r2
      ctrlRec := fun c2 => if c2 = c then some r else s1.ctrlRec c2 }

/-- The spec's symmetric-attach invariant:
`receiver.controller == c  iff  c.receiver == receiver`. -/
def SymInv (s : MonoState) : Prop :=
  ∀ r c, s.recCtrl r = some c ↔ s.ctrlRec c = some r

/-- The all-detached initial state. -/
def monoInit : MonoState :=
  { recCtrl := fun _ => none, ctrlRec := fun _ => none }

/-! ## Multireceiver (src/control.py lines 258-338)

The external controller is just its two queues: inbound `cmds` (what
`read_cmd`/`has_cmd` drain) and outbound `msgs` (what `write_msg` has
appended, i.e. what the router has sent it, in order). -/

structure ExtCtrl where
  cmds : List Cmd
  msgs : List Msg
deriving DecidableEq

/-- `ExtCtrl.has_msg` (the Player pattern, src/control.py lines 164-165):
true iff the message queue is non-empty. -/
def ExtCtrl.has_msg (ec : ExtCtrl) : Bool := !ec.msgs.isEmpty

/-- What a member Receiver's `controller` field holds, as tested by
`Multireceiver._check_controllers` (src/control.py line 313): the
member's own DummyController, None, or some other (foreign) controller
that took the member over out-of-band. -/
inductive MemberCtrl where
  | ownAdapter : MemberCtrl
  | unattached : MemberCtrl
  | foreign : MemberCtrl
deriving DecidableEq

/-- A member Receiver: its printable name (what `"%s" % rec` renders)
and its current `controller` field. -/
structure Member where
  name : String
  ctrl : MemberCtrl
deriving DecidableEq

/-- Multireceiver state (src/control.py lines 285-294): the external
`controller` (None until attach), `_rec_dict` as an insertion-ordered
list of (member, that member's DummyController command queue),
the dedup window `outgoing` and its capacity `outgoing_size`. -/
structure MRState where
  controller : Option ExtCtrl
  recs : List (Member × List Cmd)
  outgoing : List (String × Msg)
  outgoing_size : Nat
deriving DecidableEq

/-- `Multireceiver.__init__` (src/control.py lines 285-294): no external
controller, one empty DummyController queue per member, empty window,
`outgoing_size = int(len(self._rec_dict) * 1.5)` = floor(3n/2). -/
def mkMultireceiver (members : List Member) : MRState :=
  { controller := none
    recs := members.map (fun m => (m, []))
    outgoing := []
    outgoing_size := members.length * 3 / 2 }

/-- `Multireceiver.attach` (src/control.py lines 300-303): store the
external controller, then have every member's DummyController assume
control of it (so each member's `controller` field becomes its own
adapter). -/
def Multireceiver.attach (ec : ExtCtrl) (s : MRState) : MRState :=
  { s with
    controller := some ec
    recs := s.recs.map (fun p => ({ name := p.1.name, ctrl := MemberCtrl.ownAdapter }, p.2)) }

/-- The eviction notice text, exactly as written at src/control.py
line 314 (including the source's misspelling of the word after
"connection"). -/
def lostMsg (name : String) : Msg := "Lost connection wtih " ++ name

/-- `controller.write_msg(m)`: append m to the external controller's
message queue.  (In the source a None controller would raise
AttributeError; every theorem below that exercises this path assumes a
controller is attached, matching `update`'s own requirement.) -/
def writeExt (c : Option ExtCtrl) (m : Msg) : Option ExtCtrl :=
  c.map (fun ec => { ec with msgs := ec.msgs ++ [m] })

/-- Loop body of `Multireceiver._check_controllers` (src/control.py
lines 310-316): iterate over a copy of `_rec_dict` (kept = already
scanned survivors, rest = not yet scanned); a member whose `controller`
is neither None nor its own adapter is evicted: the notice is written to
the external controller, the pair is deleted, and `outgoing_size` is
recomputed from the remaining count. -/
def checkGo : List (Member × List Cmd) → List (Member × List Cmd) → Option ExtCtrl → Nat →
    List (Member × List Cmd) × Option ExtCtrl × Nat
  | kept, [], c, sz => (kept, c, sz)
  | kept, p :: rest, c, sz =>
    if p.1.ctrl = MemberCtrl.foreign then
      checkGo kept rest (writeExt c (lostMsg p.1.name)) ((kept.length + rest.length) * 3 / 2)
    else
      checkGo (kept ++ [p]) rest c sz

/-- `Multireceiver._check_controllers` on the whole state. -/
def check_controllers (s : MRState) : MRState :=
  let t := checkGo [] s.recs s.controller s.outgoing_size
  { s with recs := t.1, controller := t.2.1, outgoing_size := t.2.2 }

/-- The window scan of `Multireceiver._message` (src/control.py
lines 321-323): some retained entry carries the same message from a
different member. -/
def dupFound (w : List (String × Msg)) (receiver : String) (message : Msg) : Bool :=
  w.any (fun p => decide (p.2 = message ∧ ¬ p.1 = receiver))

/-- The trim step of `Multireceiver._message` (src/control.py
lines 319-320): when the window is longer than `outgoing_size`, drop the
oldest entry (`pop(0)`), once. -/
def trimWindow (s : MRState) : List (String × Msg) :=
  if s.outgoing.length > s.outgoing_size then s.outgoing.tail else s.outgoing

/-- The header test of `Multireceiver._message` (src/control.py
line 326): the window is empty, or its last entry's source is not this
receiver. -/
def headerNeeded (w : List (String × Msg)) (receiver : String) : Bool :=
  match w.getLast? with
  | none => true
  | some p => decide (¬ p.1 = receiver)

/-- `Multireceiver._message(receiver, message)` (src/control.py
lines 318-329): trim the window; if a retained entry repeats the message
from a different member, suppress (the trim persists, nothing else
changes); otherwise, when a controller is attached, write the
`"[receiver]"` header when due, write the message body, and append
`(receiver, message)` to the window.  With no controller attached the
for-else falls through to the `is not None` guard and nothing is
forwarded or appended. -/
def route (receiver : String) (message : Msg) (s : MRState) : MRState :=
  let w := trimWindow s
  if dupFound w receiver message then
    { s with outgoing := w }
  else
    match s.controller with
    | none => { s with outgoing := w }
    | some ec =>
        let hdr := if headerNeeded w receiver then ["[" ++ receiver ++ "]"] else []
        { s with
          controller := some { ec with msgs := ec.msgs ++ hdr ++ [message] }
          outgoing := w ++ [(receiver, message)] }

/-- The fan-out loop of `Multireceiver.update` (src/control.py
lines 333-336): while the external controller has commands, pop the
oldest and append a copy to every member DummyController queue. -/
def fanoutGo : List Cmd → List (Member × List Cmd) → List (Member × List Cmd)
  | [], recs => recs
  | c :: rest, recs => fanoutGo rest (recs.map (fun p => (p.1, p.2 ++ [c])))

/-- The fan-out step on the whole state: drains the external command
queue into every remaining member's queue.  (A None controller would
raise AttributeError at `self.controller.has_cmd()` in the source;
theorems about `update` assume one is attached.) -/
def fanout (s : MRState) : MRState :=
  match s.controller with
  | none => s
  | some ec =>
      { s with
        controller := some { ec with cmds := [] }
        recs := fanoutGo ec.cmds s.recs }

/-- `Multireceiver.update` (src/control.py lines 331-338): failure
detection, then command fan-out, then `rec.update()` on every remaining
member in order.  What a member's own `update` does is entity logic
outside this module, so it is a parameter: `memberStep m` is the state
transformation member m's update performs (typically calls back into
`route` via its DummyController's `write_msg`). -/
def Multireceiver.update (memberStep : Member → MRState → MRState) (s : MRState) : MRState :=
  let s1 := check_controllers s
  let s2 := fanout s1
  (s2.recs.map Prod.fst).foldl (fun acc m => memberStep m acc) s2

/-- `Multireceiver.DummyController.has_msg` (src/control.py
lines 269-274): evaluates `multireceiver.controller.has_msg()` inside a
try block that swallows the AttributeError of a None controller, and
returns the computed truth value to nobody — the Python call always
returns None. -/
def dummyHasMsg (s : MRState) : Option Bool :=
  match s.controller with
  | some ec => (fun _ => none) ec.has_msg
  | none => none

/-! ## Concrete states used by counterexamples and witnesses -/

/-- Two Monoreceivers (0 and 1) successively attach the same controller 0. -/
def mono2 : MonoState := attach 1 0 (attach 0 0 monoInit)

/-- A two-member Multireceiver with an external controller attached:
capacity is floor(1.5 * 2) = 3. -/
def winBase : MRState :=
  Multireceiver.attach ⟨[], []⟩
    (mkMultireceiver [⟨"a", .ownAdapter⟩, ⟨"b", .ownAdapter⟩])

/-- winBase after member a routes four distinct messages. -/
def winFull : MRState :=
  route "a" "m4" (route "a" "m3" (route "a" "m2" (route "a" "m1" winBase)))

/-- Three members, of which bob has been taken over out-of-band. -/
def evictEx : MRState :=
  { controller := some ⟨[], []⟩
    recs := [(⟨"alice", .ownAdapter⟩, []), (⟨"bob", .foreign⟩, []),
             (⟨"carol", .unattached⟩, [])]
    outgoing := []
    outgoing_size := 4 }

/-- A one-member Multireceiver with no external controller attached. -/
def soloEx : MRState := mkMultireceiver [⟨"a", .ownAdapter⟩]

/-- Controller attached; the window retains "hi" as said by member b. -/
def dupEx : MRState :=
  { controller := some ⟨[], []⟩
    recs := [(⟨"a", .ownAdapter⟩, []), (⟨"b", .ownAdapter⟩, [])]
    outgoing := [("b", "hi")]
    outgoing_size := 3 }

/-- Controller with one queued command, two healthy members. -/
def updEx : MRState :=
  { controller := some ⟨["go"], []⟩
    recs := [(⟨"a", .ownAdapter⟩, []), (⟨"b", .ownAdapter⟩, ["x"])]
    outgoing := []
    outgoing_size := 3 }

/-! ## Theorems -/

/-- Membership form of `MultiController.has_cmd`. -/
lemma multiHasCmd_iff (l : List (List Cmd)) :
    MultiController.has_cmd l = true ↔ ∃ q ∈ l, q ≠ [] := by
  simp [MultiController.has_cmd, List.any_eq_true]

/-- The scan of `MultiController.read_cmd`, split at the first member
whose `has_cmd()` is true. -/
lemma readFirstSpec : ∀ l : List (List Cmd), MultiController.has_cmd l = true →
    ∃ pre q post, l = pre ++ q :: post ∧ (∀ p ∈ pre, p = []) ∧ q ≠ [] ∧
      MultiController.read_cmd l = (q.head?, pre ++ q.tail :: post) := by
  intro l
  induction l with
  | nil => intro h; simp [MultiController.has_cmd] at h
  | cons q rest ih =>
    intro h
    by_cases hq : q.isEmpty
    · have hq' : q = [] := by simpa using hq
      have hrest : MultiController.has_cmd rest = true := by
        subst hq'
        simpa [MultiController.has_cmd] using h
      obtain ⟨pre, q1, post, hsplit, hpre, hq1, hread⟩ := ih hrest
      refine ⟨q :: pre, q1, post, by rw [List.cons_append, hsplit], ?_, hq1, ?_⟩
      · intro p hp
        rcases List.mem_cons.mp hp with hp | hp
        · rw [hp, hq']
        · exact hpre p hp
      · simp [MultiController.read_cmd, hq, hread]
    · refine ⟨[], q, rest, rfl, by simp, ?_, ?_⟩
      · intro hqe
        rw [hqe] at hq
        exact hq rfl
      · simp [MultiController.read_cmd, hq]

/-- C7: `MultiController.has_cmd` is true iff some member has a pending
command, and `read_cmd`, called when `has_cmd` is true, pops and returns
the head of the first member (in registration order over the flattened
member list) whose `has_cmd` is true, leaving every earlier member's
queue (all empty) and every later member's queue unchanged. -/
theorem multicontroller_first_cmd (l : List (List Cmd))
    (h : MultiController.has_cmd l = true) :
    (MultiController.has_cmd l = true ↔ ∃ q ∈ l, q ≠ []) ∧
    ∃ pre q post, l = pre ++ q :: post ∧ (∀ p ∈ pre, p = []) ∧ q ≠ [] ∧
      MultiController.read_cmd l = (q.head?, pre ++ q.tail :: post) :=
  ⟨multiHasCmd_iff l, readFirstSpec l h⟩

/-- Witness for C7 at a concrete composite. -/
theorem multicontroller_first_cmd_witness :
    (MultiController.has_cmd [[], ["a", "b"], ["c"]] = true ↔
      ∃ q ∈ [[], ["a", "b"], ["c"]], q ≠ ([] : List Cmd)) ∧
    ∃ pre q post, [[], ["a", "b"], ["c"]] = pre ++ q :: post ∧
      (∀ p ∈ pre, p = ([] : List Cmd)) ∧ q ≠ [] ∧
      MultiController.read_cmd [[], ["a", "b"], ["c"]] = (q.head?, pre ++ q.tail :: post) :=
  multicontroller_first_cmd [[], ["a", "b"], ["c"]] (by decide)

/-- C10: when no flattened member has a pending command, the scan in
`MultiController.read_cmd` finds nothing, the Python function falls off
the for loop and returns None, and every member queue is untouched. -/
theorem multicontroller_read_cmd_empty (l : List (List Cmd))
    (h : MultiController.has_cmd l = false) :
    MultiController.read_cmd l = (none, l) := by
  induction l with
  | nil => rfl
  | cons q rest ih =>
    have h1 : q.isEmpty = true ∧ MultiController.has_cmd rest = false := by
      constructor
      · by_contra hq
        simp [MultiController.has_cmd, hq] at h
      · by_contra hr
        rw [Bool.not_eq_false] at hr
        rcases (multiHasCmd_iff rest).mp hr with ⟨q1, hq1, hne⟩
        have : MultiController.has_cmd (q :: rest) = true :=
          (multiHasCmd_iff _).mpr ⟨q1, List.mem_cons_of_mem _ hq1, hne⟩
        rw [this] at h
        cases h
    rw [MultiController.read_cmd, ih h1.2]
    simp [h1.1]

/-- Witness for C10 at a concrete composite with all queues empty. -/
theorem multicontroller_read_cmd_empty_witness :
    MultiController.read_cmd [[], []] = (none, [[], []]) :=
  multicontroller_read_cmd_empty [[], []] (by decide)

/-- A list of leaf controllers is its own leaf concatenation. -/
lemma leavesList_of_leaves (l : List Ctrl) (h : ∀ x ∈ l, x.isLeaf = true) :
    leavesList l = l := by
  induction l with
  | nil => rfl
  | cons c rest ih =>
    have hc : c.isLeaf = true := h c (by simp)
    have hr := ih (fun x hx => h x (List.mem_cons_of_mem _ hx))
    cases c with
    | leaf q => simp [leavesList, Ctrl.leaves, hr]
    | multi l2 => simp [Ctrl.isLeaf] at hc

/-- `MultiController.__init__`'s loop computes the leaf concatenation of
flat constituents and yields only leaves. -/
lemma flattenInit_spec : ∀ ctrls : List Ctrl, (∀ c ∈ ctrls, c.flatOk = true) →
    flattenInit ctrls = leavesList ctrls ∧ ∀ x ∈ flattenInit ctrls, x.isLeaf = true := by
  intro ctrls
  induction ctrls with
  | nil => intro _; exact ⟨rfl, by simp [flattenInit]⟩
  | cons c rest ih =>
    intro h
    obtain ⟨ih1, ih2⟩ := ih (fun x hx => h x (List.mem_cons_of_mem _ hx))
    cases c with
    | leaf q =>
      constructor
      · simp [flattenInit, leavesList, Ctrl.leaves, ih1]
      · intro x hx
        rw [show flattenInit (Ctrl.leaf q :: rest) = Ctrl.leaf q :: flattenInit rest from rfl] at hx
        rcases List.mem_cons.mp hx with hx | hx
        · rw [hx]; rfl
        · exact ih2 x hx
    | multi l2 =>
      have hflat : ∀ x ∈ l2, x.isLeaf = true := by
        have h2 := h (Ctrl.multi l2) (by simp)
        simpa [Ctrl.flatOk, List.all_eq_true] using h2
      constructor
      · simp [flattenInit, leavesList, Ctrl.leaves, leavesList_of_leaves l2 hflat, ih1]
      · intro x hx
        rw [show flattenInit (Ctrl.multi l2 :: rest) = l2 ++ flattenInit rest from rfl] at hx
        rcases List.mem_append.mp hx with hx | hx
        · exact hflat x hx
        · exact ih2 x hx

/-- C8: constructing a MultiController from controllers that are leaves
or themselves flat MultiControllers yields the member list equal to the
in-order concatenation of the constituents' leaf controllers, containing
no MultiController, so the result is itself flat. -/
theorem multicontroller_flatten (ctrls : List Ctrl)
    (h : ∀ c ∈ ctrls, c.flatOk = true) :
    flattenInit ctrls = leavesList ctrls
    ∧ (∀ x ∈ flattenInit ctrls, x.isLeaf = true)
    ∧ (mkMultiController ctrls).flatOk = true := by
  obtain ⟨h1, h2⟩ := flattenInit_spec ctrls h
  refine ⟨h1, h2, ?_⟩
  rw [mkMultiController, Ctrl.flatOk, List.all_eq_true]
  exact h2

/-- Witness for C8 at a concrete nested composite. -/
theorem multicontroller_flatten_witness :
    flattenInit [Ctrl.leaf ["a"], Ctrl.multi [Ctrl.leaf ["b"], Ctrl.leaf []], Ctrl.leaf []]
      = leavesList [Ctrl.leaf ["a"], Ctrl.multi [Ctrl.leaf ["b"], Ctrl.leaf []], Ctrl.leaf []]
    ∧ (∀ x ∈ flattenInit [Ctrl.leaf ["a"], Ctrl.multi [Ctrl.leaf ["b"], Ctrl.leaf []], Ctrl.leaf []],
        x.isLeaf = true)
    ∧ (mkMultiController [Ctrl.leaf ["a"], Ctrl.multi [Ctrl.leaf ["b"], Ctrl.leaf []], Ctrl.leaf []]).flatOk
        = true :=
  multicontroller_flatten _ (by intro c hc; fin_cases hc <;> rfl)

/-- C9: `DummyController.has_msg` evaluates the external controller's
`has_msg()` but never returns it, so the call yields no information
(None) whatever the queues hold. -/
theorem dummycontroller_has_msg_none (s : MRState) : dummyHasMsg s = none := by
  unfold dummyHasMsg
  cases s.controller <;> rfl

/-- Field computation of `detach` on receiver fields. -/
lemma detach_recCtrl (r r2 : Nat) (s : MonoState) :
    (detach r s).recCtrl r2 = if r2 = r then none else s.recCtrl r2 := by
  unfold detach
  cases h : s.recCtrl r <;> simp

/-- Field computation of `detach` on controller back-references. -/
lemma detach_ctrlRec (r c2 : Nat) (s : MonoState) :
    (detach r s).ctrlRec c2 = if s.recCtrl r = some c2 then none else s.ctrlRec c2 := by
  unfold detach
  cases h : s.recCtrl r with
  | none => simp
  | some c =>
    by_cases hc : c2 = c
    · subst hc; simp
    · simp [hc, Ne.symm hc]

/-- `detach` preserves the symmetric-attach invariant. -/
lemma detach_symInv (r : Nat) (s : MonoState) (h : SymInv s) : SymInv (detach r s) := by
  intro r2 c2
  rw [detach_recCtrl, detach_ctrlRec]
  by_cases hr : r2 = r
  · subst hr
    rw [if_pos rfl]
    constructor
    · intro hx; cases hx
    · intro hx
      exfalso
      by_cases hs : s.recCtrl r2 = some c2
      · rw [if_pos hs] at hx; cases hx
      · rw [if_neg hs] at hx
        exact hs ((h r2 c2).mpr hx)
  · rw [if_neg hr]
    by_cases hs : s.recCtrl r = some c2
    · rw [if_pos hs]
      constructor
      · intro hx
        have h1 := (h r2 c2).mp hx
        have h2 := (h r c2).mp hs
        rw [h1] at h2
        exact absurd (Option.some.inj h2) hr
      · intro hx; cases hx
    · rw [if_neg hs]
      exact h r2 c2

/-- `attach` is a no-op when the controller is already attached
(src/control.py lines 240-243). -/
lemma attach_noop (r c : Nat) (s : MonoState) (h : s.recCtrl r = some c) :
    attach r c s = s := by
  unfold attach
  rw [if_pos h]

/-- C3 (amended): from any state satisfying the symmetric-attach
invariant, provided the controller being attached does not currently
hold a different receiver: after `attach(c)` the receiver's controller
is c, c's receiver is the receiver, and the invariant still holds; after
`detach()` the receiver's controller is None, the former controller's
receiver is None, and the invariant still holds; and re-attaching the
same controller is a no-op.  (The side condition is forced: attaching a
controller still held by another receiver leaves that other receiver's
dangling reference, breaking the symmetry — see the counterexample.) -/
theorem monoreceiver_attach_detach_sym
    (s : MonoState) (hInv : SymInv s) (r c : Nat)
    (hfree : s.ctrlRec c = none ∨ s.ctrlRec c = some r) :
    (attach r c s).recCtrl r = some c
    ∧ (attach r c s).ctrlRec c = some r
    ∧ SymInv (attach r c s)
    ∧ (detach r s).recCtrl r = none
    ∧ (∀ c0, s.recCtrl r = some c0 → (detach r s).ctrlRec c0 = none)
    ∧ SymInv (detach r s)
    ∧ attach r c (attach r c s) = attach r c s := by
  have hdet1 : (detach r s).recCtrl r = none := by rw [detach_recCtrl]; simp
  have hdet2 : ∀ c0, s.recCtrl r = some c0 → (detach r s).ctrlRec c0 = none := by
    intro c0 h0
    rw [detach_ctrlRec, if_pos h0]
  have hdetInv : SymInv (detach r s) := detach_symInv r s hInv
  by_cases hA : s.recCtrl r = some c
  · rw [attach_noop r c s hA]
    exact ⟨hA, (hInv r c).mp hA, hInv, hdet1, hdet2, hdetInv, attach_noop r c s hA⟩
  · have hff : ∀ X, attach r c X = if X.recCtrl r = some c then X else
        { recCtrl := fun r2 => if r2 = r then some c else (detach r X).recCtrl r2
          ctrlRec := fun c2 => if c2 = c then some r else (detach r X).ctrlRec c2 } := by
      intro X; rfl
    have h1 : (attach r c s).recCtrl r = some c := by
      rw [hff, if_neg hA]; simp
    have h2 : (attach r c s).ctrlRec c = some r := by
      rw [hff, if_neg hA]; simp
    have h3 : SymInv (attach r c s) := by
      intro r2 c2
      rw [hff, if_neg hA]
      by_cases hr2 : r2 = r
      · subst hr2
        by_cases hc2 : c2 = c
        · subst hc2; simp
        · simp only [if_pos rfl, if_neg hc2]
          constructor
          · intro hx
            exact absurd (Option.some.inj hx).symm hc2
          · intro hx
            exfalso
            have := (hdetInv r2 c2).mpr hx
            rw [hdet1] at this
            cases this
      · by_cases hc2 : c2 = c
        · subst hc2
          simp only [if_neg hr2, if_pos rfl]
          constructor
          · intro hx
            exfalso
            have hd : (detach r s).recCtrl r2 = s.recCtrl r2 := by
              rw [detach_recCtrl, if_neg hr2]
            rw [hd] at hx
            have hcr := (hInv r2 c2).mp hx
            rcases hfree with hf | hf
            · rw [hf] at hcr; cases hcr
            · rw [hf] at hcr
              exact hr2 (Option.some.inj hcr).symm
          · intro hx
            exact absurd (Option.some.inj hx).symm hr2
        · simp only [if_neg hr2, if_neg hc2]
          exact hdetInv r2 c2
    exact ⟨h1, h2, h3, hdet1, hdet2, hdetInv, attach_noop r c _ h1⟩

/-- Witness for C3 at the all-detached state, receiver 0, controller 0. -/
theorem monoreceiver_attach_detach_sym_witness :
    (attach 0 0 monoInit).recCtrl 0 = some 0
    ∧ (attach 0 0 monoInit).ctrlRec 0 = some 0
    ∧ SymInv (attach 0 0 monoInit)
    ∧ (detach 0 monoInit).recCtrl 0 = none
    ∧ (∀ c0, monoInit.recCtrl 0 = some c0 → (detach 0 monoInit).ctrlRec c0 = none)
    ∧ SymInv (detach 0 monoInit)
    ∧ attach 0 0 (attach 0 0 monoInit) = attach 0 0 monoInit :=
  monoreceiver_attach_detach_sym monoInit
    (by intro r c; simp [monoInit]) 0 0 (Or.inl rfl)

/-- C3 counterexample: after receiver 0 attaches controller 0 and then
receiver 1 attaches the same controller 0, receiver 0 still records
controller 0 while controller 0's back-reference is receiver 1, so the
claimed symmetry fails in an observable post-call state. -/
theorem monoreceiver_symmetry_cex :
    mono2.recCtrl 0 = some 0 ∧ ¬ mono2.ctrlRec 0 = some 0 := by
  decide

/-- Routing never changes the window capacity. -/
lemma route_size (r : String) (m : Msg) (s : MRState) :
    (route r m s).outgoing_size = s.outgoing_size := by
  simp only [route]
  split
  · rfl
  · split <;> rfl

/-- The post-trim window fits inside capacity whenever the pre-call
window was within capacity + 1. -/
lemma trimWindow_le (s : MRState) (h : s.outgoing.length ≤ s.outgoing_size + 1) :
    (trimWindow s).length ≤ s.outgoing_size := by
  rw [trimWindow]
  split
  · rw [List.length_tail]; omega
  · omega

/-- One routed message keeps the window within capacity + 1. -/
lemma route_outgoing_len (r : String) (m : Msg) (s : MRState)
    (h : s.outgoing.length ≤ s.outgoing_size + 1) :
    (route r m s).outgoing.length ≤ s.outgoing_size + 1 := by
  have htrim := trimWindow_le s h
  simp only [route]
  split
  · exact le_trans htrim (by omega)
  · split
    · exact le_trans htrim (by omega)
    · simp only [List.length_append, List.length_cons, List.length_nil]
      omega

/-- Failure detection keeps `outgoing_size` equal to floor(1.5 × count):
every eviction recomputes it from the remaining membership. -/
lemma checkGo_size : ∀ (rest kept : List (Member × List Cmd)) (c : Option ExtCtrl) (sz : Nat),
    sz = (kept.length + rest.length) * 3 / 2 →
    (checkGo kept rest c sz).2.2 = (checkGo kept rest c sz).1.length * 3 / 2 := by
  intro rest
  induction rest with
  | nil =>
    intro kept c sz h
    simpa [checkGo] using h
  | cons p rest ih =>
    intro kept c sz h
    rw [checkGo]
    split
    · exact ih kept _ _ rfl
    · apply ih (kept ++ [p]) c sz
      rw [h, List.length_append]
      congr 1
      simp
      omega

/-- C1 (amended): capacity is floor(1.5 × n) at construction (with an
empty window) and failure detection re-establishes capacity =
floor(1.5 × active members) after its evictions; a routed message never
changes capacity and keeps the window within capacity + 1 — not within
capacity as claimed: the source trims only when the window already
exceeds capacity and does so before appending, so length capacity + 1 is
reachable and is the invariant bound between evictions. -/
theorem multireceiver_capacity_and_window_bound
    (members : List Member) (s t : MRState) (r : String) (m : Msg)
    (hsz : s.outgoing_size = s.recs.length * 3 / 2)
    (hlen : t.outgoing.length ≤ t.outgoing_size + 1) :
    (mkMultireceiver members).outgoing_size = members.length * 3 / 2
    ∧ (mkMultireceiver members).outgoing = []
    ∧ (check_controllers s).outgoing_size = (check_controllers s).recs.length * 3 / 2
    ∧ (route r m t).outgoing_size = t.outgoing_size
    ∧ (route r m t).outgoing.length ≤ (route r m t).outgoing_size + 1 := by
  refine ⟨rfl, rfl, ?_, route_size r m t, ?_⟩
  · have h0 : s.outgoing_size
        = (([] : List (Member × List Cmd)).length + s.recs.length) * 3 / 2 := by
      simpa using hsz
    have hmain := checkGo_size s.recs [] s.controller s.outgoing_size h0
    simpa [check_controllers] using hmain
  · rw [route_size r m t]
    exact route_outgoing_len r m t hlen

/-- Witness for C1 at concrete states. -/
theorem multireceiver_capacity_and_window_bound_witness :
    (mkMultireceiver [⟨"a", .ownAdapter⟩]).outgoing_size
        = [(⟨"a", .ownAdapter⟩ : Member)].length * 3 / 2
    ∧ (mkMultireceiver [⟨"a", .ownAdapter⟩]).outgoing = []
    ∧ (check_controllers evictEx).outgoing_size = (check_controllers evictEx).recs.length * 3 / 2
    ∧ (route "a" "hi" winBase).outgoing_size = winBase.outgoing_size
    ∧ (route "a" "hi" winBase).outgoing.length ≤ (route "a" "hi" winBase).outgoing_size + 1 :=
  multireceiver_capacity_and_window_bound [⟨"a", .ownAdapter⟩] evictEx winBase "a" "hi"
    (by decide) (by decide)

/-- C1 counterexample: a two-member Multireceiver has capacity
floor(1.5 × 2) = 3, yet after member a routes four distinct messages the
window holds 4 entries — the window exceeds capacity, because the trim
fires only once the length already exceeds capacity and runs before the
append. -/
theorem multireceiver_window_exceeds_capacity :
    winFull.outgoing_size = 3 ∧ winFull.outgoing.length = 4 := by
  decide

/-- C2: at the failing input (member bob taken over out-of-band, healthy
members alice and carol), failure detection evicts exactly bob,
recomputes capacity to floor(1.5 × 2) = 3, but writes the misspelled
notice "Lost connection wtih bob" — not the "Lost connection with bob"
the claim (and the intent) state. -/
theorem multireceiver_eviction_typo :
    (check_controllers evictEx).controller = some ⟨[], ["Lost connection wtih bob"]⟩
    ∧ (check_controllers evictEx).recs
        = [(⟨"alice", .ownAdapter⟩, []), (⟨"carol", .unattached⟩, [])]
    ∧ (check_controllers evictEx).outgoing_size = 3
    ∧ "Lost connection wtih bob" ≠ "Lost connection with bob" := by
  decide

/-- C4 (amended): provided an external controller is attached, an
incoming message is suppressed — nothing written to the controller,
nothing appended to the window (only the trim persists) — if and only if
the post-trim window retains an equal message from a different member. -/
theorem route_suppression_iff (s : MRState) (ec : ExtCtrl) (r : String) (m : Msg)
    (hc : s.controller = some ec) :
    ((route r m s).controller = s.controller ∧ (route r m s).outgoing = trimWindow s)
    ↔ dupFound (trimWindow s) r m = true := by
  cases hd : dupFound (trimWindow s) r m with
  | true =>
    have hroute : route r m s = { s with outgoing := trimWindow s } := by
      rw [route]
      simp [hd]
    rw [hroute]
    simp
  | false =>
    have hroute : route r m s = { s with
        controller := some { ec with msgs := ec.msgs
          ++ (if headerNeeded (trimWindow s) r then ["[" ++ r ++ "]"] else []) ++ [m] }
        outgoing := trimWindow s ++ [(r, m)] } := by
      rw [route]
      simp [hd, hc]
    rw [hroute]
    simp only [hc, Bool.false_eq_true, iff_false, not_and]
    intro h1
    exfalso
    have h2 := congrArg ExtCtrl.msgs (Option.some.inj h1)
    have h3 := congrArg List.length h2
    simp only [List.length_append, List.length_cons, List.length_nil] at h3
    omega

/-- Witness for C4 at a concrete suppressing state. -/
theorem route_suppression_iff_witness :
    ((route "a" "hi" dupEx).controller = dupEx.controller
      ∧ (route "a" "hi" dupEx).outgoing = trimWindow dupEx)
    ↔ dupFound (trimWindow dupEx) "a" "hi" = true :=
  route_suppression_iff dupEx ⟨[], []⟩ "a" "hi" rfl

/-- C4 counterexample: with no external controller attached, a message
with no duplicate anywhere in the window is still swallowed whole — the
state (window included) is left unchanged even though the window holds
no equal message from another member, so the claimed "if and only if"
fails as stated. -/
theorem route_suppresses_without_duplicate :
    route "a" "hi" soloEx = soloEx ∧ dupFound (trimWindow soloEx) "a" "hi" = false := by
  decide

/-- C5: when routing forwards (controller attached, no duplicate), the
controller receives the header "[member]" exactly when the post-trim
window is empty or its last entry's source differs from the member,
followed by the message body, and (member, message) is appended to the
window — so consecutive forwarded messages from one member share a
single header. -/
theorem route_forward_headers (s : MRState) (ec : ExtCtrl) (r : String) (m : Msg)
    (hc : s.controller = some ec)
    (hdup : dupFound (trimWindow s) r m = false) :
    (route r m s).controller = some { ec with msgs := ec.msgs
        ++ (if headerNeeded (trimWindow s) r then ["[" ++ r ++ "]"] else []) ++ [m] }
    ∧ (route r m s).outgoing = trimWindow s ++ [(r, m)]
    ∧ (headerNeeded (trimWindow s) r = true
        ↔ (trimWindow s = [] ∨ ∃ p, (trimWindow s).getLast? = some p ∧ ¬ p.1 = r)) := by
  have hroute : route r m s = { s with
      controller := some { ec with msgs := ec.msgs
        ++ (if headerNeeded (trimWindow s) r then ["[" ++ r ++ "]"] else []) ++ [m] }
      outgoing := trimWindow s ++ [(r, m)] } := by
    rw [route]
    simp [hdup, hc]
  refine ⟨by rw [hroute], by rw [hroute], ?_⟩
  rw [headerNeeded]
  cases hL : (trimWindow s).getLast? with
  | none =>
    simp only [true_iff]
    exact Or.inl (List.getLast?_eq_none_iff.mp hL)
  | some p =>
    constructor
    · intro hx
      exact Or.inr ⟨p, rfl, of_decide_eq_true hx⟩
    · intro hx
      rcases hx with he | ⟨q, hq, hqr⟩
      · rw [he] at hL
        simp at hL
      · obtain rfl := Option.some.inj hq
        exact decide_eq_true hqr

/-- Witness for C5 at a concrete forwarding state (speaker change, so
the header is due). -/
theorem route_forward_headers_witness :
    (route "a" "yo" dupEx).controller = some { (⟨[], []⟩ : ExtCtrl) with
        msgs := (⟨[], []⟩ : ExtCtrl).msgs
          ++ (if headerNeeded (trimWindow dupEx) "a" then ["[" ++ "a" ++ "]"] else []) ++ ["yo"] }
    ∧ (route "a" "yo" dupEx).outgoing = trimWindow dupEx ++ [("a", "yo")]
    ∧ (headerNeeded (trimWindow dupEx) "a" = true
        ↔ (trimWindow dupEx = [] ∨ ∃ p, (trimWindow dupEx).getLast? = some p ∧ ¬ p.1 = "a")) :=
  route_forward_headers dupEx ⟨[], []⟩ "a" "yo" rfl (by decide)

/-- The fan-out loop appends the whole drained command sequence, in
order, to every member queue. -/
lemma fanoutGo_eq : ∀ (cmds : List Cmd) (recs : List (Member × List Cmd)),
    fanoutGo cmds recs = recs.map (fun p => (p.1, p.2 ++ cmds)) := by
  intro cmds
  induction cmds with
  | nil => intro recs; simp [fanoutGo]
  | cons c rest ih =>
    intro recs
    rw [fanoutGo, ih, List.map_map]
    congr 1
    funext p
    simp

/-- C6: one `update` tick is failure detection, then command fan-out,
then the members' own updates, in that order (whatever entity logic
`memberStep` performs); fan-out empties the external command queue and
extends every surviving member's private queue by that identical command
sequence in its original order. -/
theorem multireceiver_update_in_order
    (memberStep : Member → MRState → MRState) (s : MRState) (ec : ExtCtrl)
    (hc : (check_controllers s).controller = some ec) :
    Multireceiver.update memberStep s
        = ((fanout (check_controllers s)).recs.map Prod.fst).foldl
            (fun acc m => memberStep m acc) (fanout (check_controllers s))
    ∧ (fanout (check_controllers s)).recs
        = (check_controllers s).recs.map (fun p => (p.1, p.2 ++ ec.cmds))
    ∧ (fanout (check_controllers s)).controller = some { ec with cmds := [] } := by
  refine ⟨rfl, ?_, ?_⟩
  · simp [fanout, hc, fanoutGo_eq]
  · simp [fanout, hc]

/-- Witness for C6 at a concrete state, with member updates that do
nothing. -/
theorem multireceiver_update_in_order_witness :
    Multireceiver.update (fun _ t => t) updEx
        = ((fanout (check_controllers updEx)).recs.map Prod.fst).foldl
            (fun acc m => (fun _ t => t : Member → MRState → MRState) m acc)
            (fanout (check_controllers updEx))
    ∧ (fanout (check_controllers updEx)).recs
        = (check_controllers updEx).recs.map (fun p => (p.1, p.2 ++ (⟨["go"], []⟩ : ExtCtrl).cmds))
    ∧ (fanout (check_controllers updEx)).controller
        = some { (⟨["go"], []⟩ : ExtCtrl) with cmds := [] } :=
  multireceiver_update_in_order (fun _ t => t) updEx ⟨["go"], []⟩ (by decide)

end MuddySwamp
